import Mathlib

/-!
Verification of the token-ledger / subscription-reconciliation core of the
Unity-AI-LandingPage repository.  The definitions below are a shallow
embedding of the JavaScript source: each SQL statement in
src/config/database.js becomes a pure state transformer on an account row,
each route handler in src/routes/auth.js (API part), src/routes/payment.js
and the renewal scheduler becomes a function over that state.  SQL
rowsAffected counts are returned explicitly.  Timestamps are modelled as
natural-number seconds.
-/

namespace LandingPage

/-- One row of the users table (the fields the core reads or writes).
tokens is the INTEGER balance column; tier/status/refs are nullable TEXT
columns; last_token_reset is a timestamp in seconds. -/
structure User where
  tokens : Int
  subscription_tier : Option String
  stripe_customer_id : Option String
  stripe_subscription_id : Option String
  subscription_status : Option String
  last_token_reset : Nat
  deriving DecidableEq, Repr

/-- deductToken (src/config/database.js):
UPDATE users SET tokens = tokens - 1 WHERE id = ? AND tokens > 0.
Returns the updated row together with rowsAffected. -/
def deductToken (u : User) : User × Nat :=
  if 0 < u.tokens then ({ u with tokens := u.tokens - 1 }, 1) else (u, 0)

/-- addTokensToUser (src/config/database.js):
UPDATE users SET tokens = tokens + ? WHERE id = ?. -/
def addTokensToUser (amount : Int) (u : User) : User :=
  { u with tokens := u.tokens + amount }

/-- updateUserSubscription (src/config/database.js):
UPDATE users SET subscription_tier = ?, stripe_customer_id = ?,
stripe_subscription_id = ?, subscription_status = ? WHERE id = ?. -/
def updateUserSubscription (tier customerId subscriptionId status : Option String)
    (u : User) : User :=
  { u with
    subscription_tier := tier
    stripe_customer_id := customerId
    stripe_subscription_id := subscriptionId
    subscription_status := status }

/-- The 30-day renewal period of the free tier, in seconds. -/
def thirtyDays : Nat := 30 * 86400

/-- resetUserTokens (src/config/database.js):
UPDATE users SET tokens = 20, last_token_reset = CURRENT_TIMESTAMP
WHERE id = ? AND subscription_tier = 'free'.  Returns rowsAffected. -/
def resetUserTokens (now : Nat) (u : User) : User × Nat :=
  if u.subscription_tier = some "free" then
    ({ u with tokens := 20, last_token_reset := now }, 1)
  else (u, 0)

/-- A sequence of n debit attempts against one account, in program order;
returns the final row and the number of successful debits (total
rowsAffected). -/
def runDebits : Nat → User → User × Nat
  | 0, u => (u, 0)
  | n + 1, u =>
      ((runDebits n (deductToken u).1).1,
       (deductToken u).2 + (runDebits n (deductToken u).1).2)

lemma runDebits_tokens_sub (n : Nat) (u : User) :
    ((runDebits n u).1).tokens = u.tokens - ((runDebits n u).2 : Int) := by
  induction n generalizing u with
  | zero => simp [runDebits]
  | succ k ih =>
      by_cases h : 0 < u.tokens <;>
        simp [runDebits, deductToken, h, ih] <;>
        push_cast <;>
        omega

lemma runDebits_nonneg (n : Nat) (u : User) (h : 0 ≤ u.tokens) :
    0 ≤ ((runDebits n u).1).tokens := by
  induction n generalizing u with
  | zero => simpa [runDebits]
  | succ k ih =>
      by_cases hp : 0 < u.tokens
      · simp only [runDebits, deductToken, if_pos hp]
        exact ih _ (by simp; omega)
      · simp only [runDebits, deductToken, if_neg hp]
        exact ih _ h

/-- C1: deductToken decrements the balance by exactly 1 only when the
current balance is strictly positive (rowsAffected = 1), and otherwise
affects 0 rows and leaves the row untouched; consequently, for any
sequence of n debit attempts starting from a nonnegative balance, the
balance never goes negative and the number of successful debits never
exceeds the initial balance. -/
theorem deductToken_conditional_and_no_overdraft (u : User) (n : Nat) :
    deductToken u
      = (if 0 < u.tokens then ({ u with tokens := u.tokens - 1 }, 1) else (u, 0))
    ∧ ((runDebits n u).1).tokens = u.tokens - ((runDebits n u).2 : Int)
    ∧ (0 ≤ u.tokens →
        0 ≤ ((runDebits n u).1).tokens
        ∧ ((runDebits n u).2 : Int) ≤ u.tokens) := by
  refine ⟨rfl, runDebits_tokens_sub n u, fun h => ⟨runDebits_nonneg n u h, ?_⟩⟩
  have hs := runDebits_tokens_sub n u
  have hn := runDebits_nonneg n u h
  omega

/-- A concrete free-tier row used by witnesses. -/
def sampleUser : User :=
  { tokens := 2
    subscription_tier := some "free"
    stripe_customer_id := none
    stripe_subscription_id := none
    subscription_status := none
    last_token_reset := 0 }

/-- Witness for C1 at a concrete account with balance 2 and 5 debit
attempts. -/
theorem deductToken_conditional_and_no_overdraft_witness :
    0 ≤ sampleUser.tokens
    ∧ (0 ≤ ((runDebits 5 sampleUser).1).tokens
       ∧ ((runDebits 5 sampleUser).2 : Int) ≤ sampleUser.tokens) :=
  ⟨by decide, (deductToken_conditional_and_no_overdraft sampleUser 5).2.2 (by decide)⟩

/-- The users table: rows keyed by the integer primary key id. -/
abbrev DB := List (Nat × User)

/-- getUserById (src/config/database.js): SELECT * FROM users WHERE id = ?. -/
def getUserById (i : Nat) (db : DB) : Option User :=
  (db.find? (fun p => p.1 == i)).map (fun p => p.2)

/-- One UPDATE ... WHERE id = ? statement: applies f to every row whose key
is i (the primary key makes it at most one in a well-formed table). -/
def updateById (i : Nat) (f : User → User) (db : DB) : DB :=
  db.map (fun p => if p.1 = i then (p.1, f p.2) else p)

/-- One entry of SUBSCRIPTION_TIERS (src/routes/payment.js). -/
structure TierInfo where
  name : String
  price : Nat
  tokens : Int
  priceId : String
  deriving DecidableEq, Repr

/-- SUBSCRIPTION_TIERS (src/routes/payment.js).  The Stripe price ids are
read from environment variables (STRIPE_PRICE_TIER1 / STRIPE_PRICE_TIER2);
they are modelled as two distinct otherwise-uninterpreted strings. -/
def SUBSCRIPTION_TIERS : List (String × TierInfo) :=
  [("tier1", { name := "Starter", price := 15, tokens := 200, priceId := "price_tier1" }),
   ("tier2", { name := "Pro", price := 35, tokens := 1000, priceId := "price_tier2" })]

/-- The object access SUBSCRIPTION_TIERS[tier] in the webhook handler. -/
def lookupTier (tier : String) : Option TierInfo :=
  (SUBSCRIPTION_TIERS.find? (fun p => p.1 == tier)).map (fun p => p.2)

/-- The price-to-tier scan of the customer.subscription.updated handler:
the first catalog entry whose priceId matches. -/
def findTierByPrice (priceId : String) : Option (String × TierInfo) :=
  SUBSCRIPTION_TIERS.find? (fun p => p.2.priceId == priceId)

/-- The webhook event kinds handled by the switch in the Stripe webhook
route (src/routes/payment.js), with the payload fields the handler reads
already resolved (userId from the session/customer metadata, subscription
id and status from the retrieved subscription, the first line item's price
id, or none when the subscription has no items). -/
inductive StripeEvent where
  | checkoutSessionCompleted (userId : Nat) (tier : String) (customer : String)
      (subscriptionId : String) (subscriptionStatus : String)
  | customerSubscriptionUpdated (userId : Nat) (customer : String)
      (subscriptionId : String) (priceId : Option String) (status : String)
  | customerSubscriptionDeleted (userId : Nat) (customer : String)
  | invoicePaymentSucceeded (userId : Nat)
  | invoicePaymentFailed (userId : Nat)
  deriving DecidableEq, Repr

/-- The body of the try block of the webhook route (src/routes/payment.js),
one case per event type.  The Bool is true when the case ran to completion
and false when it threw (reaching the catch and the 500 response); a throw
after a database write leaves that write in place, exactly as in the
source.  An unknown tier key makes the JavaScript read tierInfo.tokens of
undefined throw at the addTokensToUser call site. -/
def handleWebhookEvent : StripeEvent → DB → DB × Bool
  | .checkoutSessionCompleted userId tier customer subId subStatus, db =>
      let db1 := updateById userId
        (updateUserSubscription (some tier) (some customer) (some subId) (some subStatus)) db
      match lookupTier tier with
      | some tierInfo => (updateById userId (addTokensToUser tierInfo.tokens) db1, true)
      | none => (db1, false)
  | .customerSubscriptionUpdated userId customer subId priceId status, db =>
      let newTier := priceId.bind (fun p => findTierByPrice p)
      match getUserById userId db with
      | some user =>
          match newTier with
          | some (tierKey, tierInfo) =>
              if some tierKey ≠ user.subscription_tier then
                let db1 := updateById userId
                  (updateUserSubscription (some tierKey) (some customer) (some subId)
                    (some status)) db
                (updateById userId (addTokensToUser tierInfo.tokens) db1, true)
              else
                (updateById userId
                  (updateUserSubscription
                    (user.subscription_tier.orElse (fun _ => some tierKey))
                    (some customer) (some subId) (some status)) db, true)
          | none =>
              (updateById userId
                (updateUserSubscription user.subscription_tier
                  (some customer) (some subId) (some status)) db, true)
      | none =>
          (updateById userId
            (updateUserSubscription (newTier.map (fun p => p.1))
              (some customer) (some subId) (some status)) db, true)
  | .customerSubscriptionDeleted userId customer, db =>
      (updateById userId
        (updateUserSubscription none (some customer) none (some "canceled")) db, true)
  | .invoicePaymentSucceeded userId, db =>
      match getUserById userId db with
      | some user =>
          match user.subscription_tier with
          | some tier =>
              match lookupTier tier with
              | some tierInfo => (updateById userId (addTokensToUser tierInfo.tokens) db, true)
              | none => (db, false)
          | none => (db, true)
      | none => (db, true)
  | .invoicePaymentFailed _, db => (db, true)

/-- Responses of the webhook route: 400 on a failed signature check,
200 with received true, or 500 on a processing error. -/
inductive WebhookResponse where
  | badSignature
  | received
  | processingError
  deriving DecidableEq, Repr

/-- The whole webhook route (src/routes/payment.js): the
stripe.webhooks.constructEvent signature check runs first and returns 400
without touching the database when it fails; only then is the event
dispatched.  Whether the signature over the raw body verifies against
STRIPE_WEBHOOK_SECRET is external cryptography, modelled as the Boolean
signatureValid. -/
def webhookEndpoint (signatureValid : Bool) (e : StripeEvent) (db : DB) :
    DB × WebhookResponse :=
  if signatureValid then
    let r := handleWebhookEvent e db
    (r.1, if r.2 then .received else .processingError)
  else (db, .badSignature)

/-- C6: for every inbound webhook event, signature verification happens
before any state mutation: when verification fails the event is rejected
with the 400 response and the users table is unchanged, whatever the event
was. -/
theorem webhook_bad_signature_no_mutation (e : StripeEvent) (db : DB) :
    webhookEndpoint false e db = (db, WebhookResponse.badSignature) := rfl

/-- The free account of Scenario C: tokens = 5, tier free. -/
def scenarioCUser : User :=
  { tokens := 5
    subscription_tier := some "free"
    stripe_customer_id := none
    stripe_subscription_id := none
    subscription_status := none
    last_token_reset := 0 }

/-- The Scenario C checkout event: the Pro tier (tier2, grant 1000) for
account 1. -/
def scenarioCEvent : StripeEvent :=
  .checkoutSessionCompleted 1 "tier2" "cus_1" "sub_1" "active"

/-- C2: the webhook handler keeps no record of processed event ids, so
redelivering the identical checkout.session.completed event credits the
tier grant a second time: the first delivery leaves the Scenario C account
at 1005 tokens, the second at 2005 instead of the unchanged 1005 the spec
requires. -/
theorem checkout_redelivery_double_grants :
    getUserById 1 (handleWebhookEvent scenarioCEvent [(1, scenarioCUser)]).1
      = some { scenarioCUser with
                tokens := 1005
                subscription_tier := some "tier2"
                stripe_customer_id := some "cus_1"
                stripe_subscription_id := some "sub_1"
                subscription_status := some "active" }
    ∧ (getUserById 1
        (handleWebhookEvent scenarioCEvent
          (handleWebhookEvent scenarioCEvent [(1, scenarioCUser)]).1).1).map
        (fun u => u.tokens) = some 2005 := by
  constructor
  · rfl
  · rfl

/-- The row returned by getApiKeyByHash (src/config/database.js): the
api_keys row joined with the owning user's balance, tier and status.  Only
active keys are returned, so a revoked key resolves to nothing. -/
structure KeyData where
  id : Nat
  user_id : Nat
  tokens : Int
  subscription_tier : Option String
  subscription_status : Option String
  deriving DecidableEq, Repr

/-- Outcome of the authenticateApiKey middleware (src/routes/auth.js, API
router). -/
inductive AuthOutcome where
  | keyRequired
  | invalidKey
  | insufficientTokens (tokensRemaining : Int)
  | authorized (kd : KeyData) (warning : Option String)
  deriving DecidableEq, Repr

/-- authenticateApiKey (src/routes/auth.js, API router): 401 when no key is
presented, 401 when the hash lookup finds no active key, 402 with
tokens_remaining 0 when the joined balance is not positive, otherwise the
key data is attached to the request, with a warning when the subscription
is canceled or past_due.  hasKey models whether the X-API-Key or Bearer
header was present; lookup is the result of getApiKeyByHash on its hash. -/
def authenticateApiKey (hasKey : Bool) (lookup : Option KeyData) : AuthOutcome :=
  if hasKey then
    match lookup with
    | none => .invalidKey
    | some kd =>
        if kd.tokens ≤ 0 then .insufficientTokens 0
        else
          .authorized kd
            (if kd.subscription_status = some "canceled"
                ∨ kd.subscription_status = some "past_due"
             then some "Your subscription is inactive. Please update your payment method."
             else none)
  else .keyRequired

/-- Responses of POST /v1/live-painting. -/
inductive ApiResponse where
  | keyRequired
  | invalidKey
  | insufficientTokens (tokensRemaining : Int)
  | noImage
  | aiError
  | imageResult (tokensRemaining : Int)
  deriving DecidableEq, Repr

/-- What one metered request did: the final state of the caller's user row,
the response, whether the downstream AI call was made, and whether a usage
row was appended. -/
structure RequestOutcome where
  user : User
  response : ApiResponse
  downstreamCalled : Bool
  usageLogged : Bool
  deriving DecidableEq, Repr

/-- The POST /v1/live-painting route body after authentication
(src/routes/auth.js, API router): validate the upload, deduct a token
before the AI call, 402 when the conditional update affects 0 rows, then
call the AI backend; on success log usage and answer with
tokens_remaining computed from the pre-debit snapshot kd.tokens - 1; on a
downstream error fall to the catch block, which answers 500 and issues no
refund.  u is the caller's user row at debit time (it may have changed
since the authentication snapshot kd was read); downstreamOk models
whether the axios call to the AI backend succeeds. -/
def livePaintingRoute (hasImage downstreamOk : Bool) (kd : KeyData) (u : User) :
    RequestOutcome :=
  if hasImage then
    let r := deductToken u
    if r.2 = 0 then
      { user := r.1, response := .insufficientTokens 0
        downstreamCalled := false, usageLogged := false }
    else if downstreamOk then
      { user := r.1, response := .imageResult (kd.tokens - 1)
        downstreamCalled := true, usageLogged := true }
    else
      { user := r.1, response := .aiError
        downstreamCalled := true, usageLogged := false }
  else
    { user := u, response := .noImage, downstreamCalled := false, usageLogged := false }

/-- The full request gate: authenticateApiKey followed by the
live-painting route body. -/
def processMeteredRequest (hasKey : Bool) (lookup : Option KeyData)
    (hasImage downstreamOk : Bool) (u : User) : RequestOutcome :=
  match authenticateApiKey hasKey lookup with
  | .keyRequired =>
      { user := u, response := .keyRequired, downstreamCalled := false, usageLogged := false }
  | .invalidKey =>
      { user := u, response := .invalidKey, downstreamCalled := false, usageLogged := false }
  | .insufficientTokens r =>
      { user := u, response := .insufficientTokens r
        downstreamCalled := false, usageLogged := false }
  | .authorized kd _ => livePaintingRoute hasImage downstreamOk kd u

/-- C3: the request gate rejects with InsufficientBalance reporting
remaining 0 before attempting any debit when the resolved credential's
balance is not positive (the user row is untouched and no downstream call
is made); when the authentication snapshot was positive but the
conditional debit affects 0 rows (the race was lost) it also rejects with
InsufficientBalance without a downstream call; and the downstream metered
call is made only after a successful debit, which decremented the balance
by 1. -/
theorem gate_insufficient_and_debit_before_call (lookup : Option KeyData)
    (kd : KeyData) (hasImage downstreamOk : Bool) (u : User) :
    (lookup = some kd → kd.tokens ≤ 0 →
      processMeteredRequest true lookup hasImage downstreamOk u
        = { user := u, response := .insufficientTokens 0
            downstreamCalled := false, usageLogged := false })
    ∧ (lookup = some kd → 0 < kd.tokens → u.tokens ≤ 0 →
      processMeteredRequest true lookup true downstreamOk u
        = { user := u, response := .insufficientTokens 0
            downstreamCalled := false, usageLogged := false })
    ∧ ((processMeteredRequest true lookup hasImage downstreamOk u).downstreamCalled = true →
      0 < u.tokens
      ∧ ((processMeteredRequest true lookup hasImage downstreamOk u).user).tokens
          = u.tokens - 1) := by
  refine ⟨?_, ?_, ?_⟩
  · rintro rfl hz
    simp [processMeteredRequest, authenticateApiKey, if_pos hz]
  · rintro rfl hpos hz
    have hkd : ¬ kd.tokens ≤ 0 := by omega
    have hu : ¬ 0 < u.tokens := by omega
    simp [processMeteredRequest, authenticateApiKey, hkd, livePaintingRoute,
      deductToken, hu]
  · intro hcall
    match hl : lookup with
    | none =>
        simp [processMeteredRequest, authenticateApiKey] at hcall
    | some kd' =>
        by_cases hz : kd'.tokens ≤ 0
        · simp [processMeteredRequest, authenticateApiKey, hz] at hcall
        · by_cases hi : hasImage
          · by_cases hu : 0 < u.tokens
            · refine ⟨hu, ?_⟩
              by_cases hd : downstreamOk <;>
                simp [processMeteredRequest, authenticateApiKey, hz,
                  livePaintingRoute, hi, deductToken, hu, hd]
            · simp [processMeteredRequest, authenticateApiKey, hz,
                livePaintingRoute, hi, deductToken, hu] at hcall
          · simp [processMeteredRequest, authenticateApiKey, hz,
              livePaintingRoute, hi] at hcall

/-- A key-data snapshot with zero balance, for the witness. -/
def kdZero : KeyData :=
  { id := 1, user_id := 1, tokens := 0, subscription_tier := some "free"
    subscription_status := none }

/-- A key-data snapshot with a positive balance, for the witness. -/
def kdFive : KeyData :=
  { id := 2, user_id := 1, tokens := 5, subscription_tier := some "free"
    subscription_status := none }

/-- A user row already drained to zero at debit time, for the witness. -/
def drainedUser : User :=
  { tokens := 0
    subscription_tier := some "free"
    stripe_customer_id := none
    stripe_subscription_id := none
    subscription_status := none
    last_token_reset := 0 }

/-- Witness for C3: the three conjuncts applied at concrete inputs — a
zero-balance snapshot, a positive snapshot racing a drained row, and a
fully successful request. -/
theorem gate_insufficient_and_debit_before_call_witness :
    (processMeteredRequest true (some kdZero) true true drainedUser
      = { user := drainedUser, response := .insufficientTokens 0
          downstreamCalled := false, usageLogged := false })
    ∧ (processMeteredRequest true (some kdFive) true true drainedUser
      = { user := drainedUser, response := .insufficientTokens 0
          downstreamCalled := false, usageLogged := false })
    ∧ (0 < sampleUser.tokens
      ∧ ((processMeteredRequest true (some kdFive) true true sampleUser).user).tokens
          = sampleUser.tokens - 1) :=
  ⟨(gate_insufficient_and_debit_before_call (some kdZero) kdZero true true
      drainedUser).1 rfl (by decide),
   (gate_insufficient_and_debit_before_call (some kdFive) kdFive true true
      drainedUser).2.1 rfl (by decide) (by decide),
   (gate_insufficient_and_debit_before_call (some kdFive) kdFive true true
      sampleUser).2.2 (by decide)⟩

/-- C9: when the downstream AI call fails after a successful debit, the
balance is left decremented by exactly 1 (no implicit refund on the error
path), the caller gets the processing-error response, and no usage row is
appended. -/
theorem downstream_failure_no_refund (kd : KeyData) (u : User)
    (hkd : 0 < kd.tokens) (hu : 0 < u.tokens) :
    processMeteredRequest true (some kd) true false u
      = { user := { u with tokens := u.tokens - 1 }, response := .aiError
          downstreamCalled := true, usageLogged := false } := by
  have hz : ¬ kd.tokens ≤ 0 := by omega
  simp [processMeteredRequest, authenticateApiKey, hz, livePaintingRoute,
    deductToken, hu]

/-- Witness for C9 at a concrete snapshot and row. -/
theorem downstream_failure_no_refund_witness :
    0 < kdFive.tokens ∧ 0 < sampleUser.tokens
    ∧ processMeteredRequest true (some kdFive) true false sampleUser
      = { user := { sampleUser with tokens := sampleUser.tokens - 1 }
          response := .aiError, downstreamCalled := true, usageLogged := false } :=
  ⟨by decide, by decide,
   downstream_failure_no_refund kdFive sampleUser (by decide) (by decide)⟩

/-- C4: resetUserTokens writes the 20-token baseline only when the row's
tier is still 'free' at the time of the update and reports rowsAffected;
hence after a committed upgrade to any non-free tier, a racing renewal
reset affects 0 rows and leaves the upgraded row untouched. -/
theorem reset_tier_conditional_and_upgrade_safe (now : Nat) (u : User)
    (newTier c s st : Option String) (h : newTier ≠ some "free") :
    (resetUserTokens now u
       = if u.subscription_tier = some "free"
         then ({ u with tokens := 20, last_token_reset := now }, 1)
         else (u, 0))
    ∧ resetUserTokens now (updateUserSubscription newTier c s st u)
       = (updateUserSubscription newTier c s st u, 0) := by
  refine ⟨rfl, ?_⟩
  simp [resetUserTokens, updateUserSubscription, h]

/-- Witness for C4: a free account upgraded to tier2 and then hit by the
sweep's reset. -/
theorem reset_tier_conditional_and_upgrade_safe_witness :
    (some "tier2" ≠ some "free")
    ∧ resetUserTokens 7 (updateUserSubscription (some "tier2") (some "cus_1")
        (some "sub_1") (some "active") sampleUser)
      = (updateUserSubscription (some "tier2") (some "cus_1") (some "sub_1")
          (some "active") sampleUser, 0) :=
  ⟨by decide,
   (reset_tier_conditional_and_upgrade_safe 7 sampleUser (some "tier2")
      (some "cus_1") (some "sub_1") (some "active") (by decide)).2⟩

/-- C10: for a row whose tier is 'free', resetUserTokens sets the balance
to exactly 20 regardless of the prior value, so a free-tier balance above
20 is reduced by the renewal reset, not topped up. -/
theorem free_reset_sets_exactly_twenty (now : Nat) (u : User)
    (h : u.subscription_tier = some "free") :
    ((resetUserTokens now u).1).tokens = 20
    ∧ (20 < u.tokens → ((resetUserTokens now u).1).tokens < u.tokens) := by
  simp [resetUserTokens, h]

/-- A free-tier row holding 147 tokens (e.g. leftover paid tokens), for the
C10 witness. -/
def richFreeUser : User :=
  { tokens := 147
    subscription_tier := some "free"
    stripe_customer_id := none
    stripe_subscription_id := some "sub_old"
    subscription_status := some "canceled"
    last_token_reset := 0 }

/-- Witness for C10 at a free account holding 147 tokens. -/
theorem free_reset_sets_exactly_twenty_witness :
    richFreeUser.subscription_tier = some "free"
    ∧ ((resetUserTokens 9 richFreeUser).1).tokens = 20
    ∧ ((resetUserTokens 9 richFreeUser).1).tokens < richFreeUser.tokens :=
  ⟨by decide,
   (free_reset_sets_exactly_twenty 9 richFreeUser (by decide)).1,
   (free_reset_sets_exactly_twenty 9 richFreeUser (by decide)).2 (by decide)⟩

lemma mem_updateById (i : Nat) (f : User → User) (db : DB) (u : User)
    (h : (i, u) ∈ db) : (i, f u) ∈ updateById i f db := by
  have hm := List.mem_map_of_mem (fun p => if p.1 = i then (p.1, f p.2) else p) h
  simpa [updateById] using hm

lemma mem_of_getUserById (i : Nat) (db : DB) (u : User)
    (h : getUserById i db = some u) : (i, u) ∈ db := by
  unfold getUserById at h
  rcases Option.map_eq_some'.mp h with ⟨q, hq, hv⟩
  have hmem := List.mem_of_find?_eq_some hq
  have hkey : q.1 = i := by
    have := List.find?_some hq
    simpa [beq_iff_eq] using this
  have : q = (i, u) := by
    cases q
    simp_all
  rw [← this]
  exact hmem

/-- The account of the C7 counterexample: an active tier1 subscriber with
recorded external references. -/
def activeSubscriber : User :=
  { tokens := 42
    subscription_tier := some "tier1"
    stripe_customer_id := some "cus_7"
    stripe_subscription_id := some "sub_42"
    subscription_status := some "active"
    last_token_reset := 0 }

/-- C7 counterexample: processing customer.subscription.deleted does not
retain the external subscription reference — the handler passes null for
stripe_subscription_id, so a stored reference sub_42 is erased. -/
theorem subscription_deleted_clears_subscription_ref :
    activeSubscriber.stripe_subscription_id = some "sub_42"
    ∧ (getUserById 1
        (handleWebhookEvent (.customerSubscriptionDeleted 1 "cus_7")
          [(1, activeSubscriber)]).1).map (fun u => u.stripe_subscription_id)
      = some none := by
  constructor
  · rfl
  · rfl

/-- C7 (amended): processing customer.subscription.deleted marks the
account canceled, retains the external customer reference, clears the tier
and the external subscription reference, and leaves the token balance (and
everything else) unchanged; the handler acknowledges the event. -/
theorem subscription_deleted_cancels_keeps_balance (i : Nat) (c : String)
    (u : User) (db : DB) (h : (i, u) ∈ db) :
    ((i, { u with
            subscription_tier := none
            stripe_customer_id := some c
            stripe_subscription_id := none
            subscription_status := some "canceled" })
        ∈ (handleWebhookEvent (.customerSubscriptionDeleted i c) db).1)
    ∧ (handleWebhookEvent (.customerSubscriptionDeleted i c) db).2 = true := by
  constructor
  · have hm := mem_updateById i
      (updateUserSubscription none (some c) none (some "canceled")) db u h
    simpa [handleWebhookEvent, updateUserSubscription] using hm
  · rfl

/-- Witness for C7 at the concrete tier1 subscriber. -/
theorem subscription_deleted_cancels_keeps_balance_witness :
    ((1, activeSubscriber) ∈ ([(1, activeSubscriber)] : DB))
    ∧ ((1, { activeSubscriber with
              subscription_tier := none
              stripe_customer_id := some "cus_7"
              stripe_subscription_id := none
              subscription_status := some "canceled" })
        ∈ (handleWebhookEvent (.customerSubscriptionDeleted 1 "cus_7")
            [(1, activeSubscriber)]).1) :=
  ⟨by decide,
   (subscription_deleted_cancels_keeps_balance 1 "cus_7" activeSubscriber
      [(1, activeSubscriber)] (by decide)).1⟩

/-- The account of the C8 counterexample: a tier1 subscriber whose stored
subscription reference is sub_old. -/
def tier1Subscriber : User :=
  { tokens := 7
    subscription_tier := some "tier1"
    stripe_customer_id := some "cus_1"
    stripe_subscription_id := some "sub_old"
    subscription_status := some "active"
    last_token_reset := 0 }

/-- C8 counterexample: a customer.subscription.updated event whose price
resolves to the account's current tier does not update only the
subscriptionStatus — it also overwrites the stored external subscription
reference with the event's value (sub_old becomes sub_new), though the
balance is indeed unchanged. -/
theorem subscription_updated_same_tier_rewrites_refs :
    tier1Subscriber.stripe_subscription_id = some "sub_old"
    ∧ (getUserById 1
        (handleWebhookEvent
          (.customerSubscriptionUpdated 1 "cus_1" "sub_new" (some "price_tier1") "active")
          [(1, tier1Subscriber)]).1).map
        (fun u => (u.stripe_subscription_id, u.tokens))
      = some (some "sub_new", 7) := by
  constructor
  · rfl
  · rfl

/-- C8 (amended): when the event's price resolves to the account's current
tier, the handler performs no token grant and no tier change — it writes
only the subscription status and the external customer and subscription
references taken from the event (the balance and the tier are identical
before and after); the grant branch runs only when the resolved tier
differs from the current one. -/
theorem subscription_updated_same_tier_no_grant (i : Nat) (c s p nt st : String)
    (ti : TierInfo) (u : User) (db : DB)
    (h1 : getUserById i db = some u)
    (h2 : findTierByPrice p = some (nt, ti))
    (h3 : u.subscription_tier = some nt) :
    ((i, { u with
            stripe_customer_id := some c
            stripe_subscription_id := some s
            subscription_status := some st })
        ∈ (handleWebhookEvent (.customerSubscriptionUpdated i c s (some p) st) db).1)
    ∧ (handleWebhookEvent (.customerSubscriptionUpdated i c s (some p) st) db).2
        = true := by
  have hmem := mem_of_getUserById i db u h1
  have heq : updateUserSubscription (some nt) (some c) (some s) (some st) u
      = { u with
          stripe_customer_id := some c
          stripe_subscription_id := some s
          subscription_status := some st } := by
    simp [updateUserSubscription, h3]
  constructor
  · have hm := mem_updateById i
      (updateUserSubscription (some nt) (some c) (some s) (some st)) db u hmem
    rw [heq] at hm
    simpa [handleWebhookEvent, h1, h2, h3, Option.orElse] using hm
  · simp [handleWebhookEvent, h1, h2, h3]

/-- Witness for C8 at the concrete tier1 subscriber and a same-price
update event. -/
theorem subscription_updated_same_tier_no_grant_witness :
    getUserById 1 [(1, tier1Subscriber)] = some tier1Subscriber
    ∧ findTierByPrice "price_tier1"
        = some ("tier1", { name := "Starter", price := 15, tokens := 200,
                           priceId := "price_tier1" })
    ∧ tier1Subscriber.subscription_tier = some "tier1"
    ∧ ((1, { tier1Subscriber with
              stripe_customer_id := some "cus_9"
              stripe_subscription_id := some "sub_new"
              subscription_status := some "past_due" })
        ∈ (handleWebhookEvent
            (.customerSubscriptionUpdated 1 "cus_9" "sub_new" (some "price_tier1")
              "past_due")
            [(1, tier1Subscriber)]).1) :=
  ⟨by decide, by decide, by decide,
   (subscription_updated_same_tier_no_grant 1 "cus_9" "sub_new" "price_tier1"
      "tier1" "past_due"
      { name := "Starter", price := 15, tokens := 200, priceId := "price_tier1" }
      tier1Subscriber [(1, tier1Subscriber)]
      (by decide) (by decide) (by decide)).1⟩

/-- The WHERE clause of getUsersNeedingTokenReset (src/config/database.js):
subscription_tier = 'free' AND datetime(last_token_reset, '+30 days') <=
datetime('now'). -/
def needsTokenReset (now : Nat) (u : User) : Bool :=
  u.subscription_tier == some "free" && decide (u.last_token_reset + thirtyDays ≤ now)

/-- getUsersNeedingTokenReset (src/config/database.js): the ids of the
matching rows. -/
def getUsersNeedingTokenReset (now : Nat) (db : DB) : List Nat :=
  (db.filter (fun p => needsTokenReset now p.2)).map (fun p => p.1)

/-- checkAndResetTokens (the renewal scheduler): select the stale free-tier
accounts, then run resetUserTokens on each selected id in turn. -/
def checkAndResetTokens (now : Nat) (db : DB) : DB :=
  (getUsersNeedingTokenReset now db).foldl
    (fun acc i => updateById i (fun u => (resetUserTokens now u).1) acc) db

lemma foldl_updateById (g : User → User) (L : List Nat) (db : DB) :
    L.foldl (fun acc i => updateById i g acc) db
      = db.map (fun p => (p.1, L.foldl (fun v j => if p.1 = j then g v else v) p.2)) := by
  induction L generalizing db with
  | nil => simp
  | cons a t ih =>
      rw [List.foldl_cons, ih, updateById, List.map_map]
      have hfun : ((fun p : Nat × User =>
            (p.1, t.foldl (fun v j => if p.1 = j then g v else v) p.2))
          ∘ (fun p : Nat × User => if p.1 = a then (p.1, g p.2) else p))
          = fun p : Nat × User =>
            (p.1, (a :: t).foldl (fun v j => if p.1 = j then g v else v) p.2) := by
        funext p
        by_cases hp : p.1 = a <;> simp [Function.comp, hp]
      rw [hfun]

lemma resetUserTokens_idem (now : Nat) (u : User) :
    (resetUserTokens now (resetUserTokens now u).1).1 = (resetUserTokens now u).1 := by
  by_cases h : u.subscription_tier = some "free" <;> simp [resetUserTokens, h]

lemma foldl_reset_apply (now : Nat) (L : List Nat) (i : Nat) (u : User) :
    L.foldl (fun v j => if i = j then (resetUserTokens now v).1 else v) u
      = if i ∈ L then (resetUserTokens now u).1 else u := by
  induction L generalizing u with
  | nil => simp
  | cons a t ih =>
      by_cases hp : i = a
      · subst hp
        simp [List.foldl_cons, ih, resetUserTokens_idem]
      · have hmem : (i ∈ a :: t) = (i ∈ t) := by simp [hp]
        simp [List.foldl_cons, hp, ih, hmem]

lemma eq_of_keys_nodup (db : DB) (h : (db.map Prod.fst).Nodup)
    (p q : Nat × User) (hp : p ∈ db) (hq : q ∈ db) (hk : p.1 = q.1) : p = q := by
  induction db with
  | nil => cases hp
  | cons a t ih =>
      rw [List.map_cons, List.nodup_cons] at h
      obtain ⟨ha, ht⟩ := h
      rcases List.mem_cons.mp hp with rfl | hp'
      · rcases List.mem_cons.mp hq with rfl | hq'
        · rfl
        · exact absurd (by rw [hk]; exact List.mem_map_of_mem Prod.fst hq') ha
      · rcases List.mem_cons.mp hq with rfl | hq'
        · exact absurd (by rw [← hk]; exact List.mem_map_of_mem Prod.fst hp') ha
        · exact ih ht hp' hq'

lemma needsTokenReset_iff (now : Nat) (u : User) :
    needsTokenReset now u = true
      ↔ (u.subscription_tier = some "free" ∧ u.last_token_reset + thirtyDays ≤ now) := by
  simp [needsTokenReset]

lemma mem_getUsersNeedingTokenReset (now : Nat) (db : DB) (p : Nat × User)
    (h : (db.map Prod.fst).Nodup) (hp : p ∈ db) :
    p.1 ∈ getUsersNeedingTokenReset now db ↔ needsTokenReset now p.2 = true := by
  unfold getUsersNeedingTokenReset
  constructor
  · intro hm
    rcases List.mem_map.mp hm with ⟨q, hq, hq1⟩
    rcases List.mem_filter.mp hq with ⟨hqdb, hqpred⟩
    have hqp : q = p := eq_of_keys_nodup db h q p hqdb hp hq1
    rw [← hqp]
    exact hqpred
  · intro hpred
    exact List.mem_map.mpr ⟨p, List.mem_filter.mpr ⟨hp, hpred⟩, rfl⟩

/-- C5: on a well-formed users table (distinct primary keys), the renewal
sweep transforms exactly the rows whose tier is 'free' and whose
last_token_reset is at least 30 days in the past, setting their balance to
the 20-token baseline and their last_token_reset to now; every other row —
paid tiers, or free rows renewed less than 30 days ago — is left
unchanged. -/
theorem sweep_resets_exactly_stale_free_accounts (now : Nat) (db : DB)
    (h : (db.map Prod.fst).Nodup) :
    checkAndResetTokens now db
      = db.map (fun p =>
          if p.2.subscription_tier = some "free"
              ∧ p.2.last_token_reset + thirtyDays ≤ now
          then (p.1, { p.2 with tokens := 20, last_token_reset := now })
          else p) := by
  unfold checkAndResetTokens
  rw [foldl_updateById]
  apply List.map_congr_left
  intro p hp
  rw [foldl_reset_apply]
  by_cases hsel : needsTokenReset now p.2 = true
  · rw [if_pos ((mem_getUsersNeedingTokenReset now db p h hp).mpr hsel)]
    have hcond := (needsTokenReset_iff now p.2).mp hsel
    rw [if_pos hcond]
    simp [resetUserTokens, hcond.1]
  · rw [if_neg (fun c => hsel ((mem_getUsersNeedingTokenReset now db p h hp).mp c)),
      if_neg (fun c => hsel ((needsTokenReset_iff now p.2).mpr c))]

/-- A stale free account (31 days since renewal, 3 tokens left) for the C5
witness, as in Scenario B. -/
def staleFreeUser : User :=
  { tokens := 3
    subscription_tier := some "free"
    stripe_customer_id := none
    stripe_subscription_id := none
    subscription_status := none
    last_token_reset := 0 }

/-- A paid account that the sweep must not touch, for the C5 witness. -/
def paidUser : User :=
  { tokens := 950
    subscription_tier := some "tier2"
    stripe_customer_id := some "cus_2"
    stripe_subscription_id := some "sub_2"
    subscription_status := some "active"
    last_token_reset := 0 }

/-- A free account renewed recently, for the C5 witness. -/
def freshFreeUser : User :=
  { tokens := 11
    subscription_tier := some "free"
    stripe_customer_id := none
    stripe_subscription_id := none
    subscription_status := none
    last_token_reset := 2678400 }

/-- Witness for C5 on a concrete three-row table, 31 days after epoch:
only the stale free row is reset to 20 with its timestamp updated. -/
theorem sweep_resets_exactly_stale_free_accounts_witness :
    (([(1, staleFreeUser), (2, paidUser), (3, freshFreeUser)] : DB).map
        Prod.fst).Nodup
    ∧ checkAndResetTokens 2678400
        [(1, staleFreeUser), (2, paidUser), (3, freshFreeUser)]
      = [(1, { staleFreeUser with tokens := 20, last_token_reset := 2678400 }),
         (2, paidUser), (3, freshFreeUser)] :=
  ⟨by decide, by
    have hres := sweep_resets_exactly_stale_free_accounts 2678400
      [(1, staleFreeUser), (2, paidUser), (3, freshFreeUser)] (by decide)
    rw [hres]
    decide⟩

end LandingPage
